import Mathlib

/-!
Verification of the `rigol_dp932a` host-side control library.

The Python source drives a Rigol DP932A power supply through a line-oriented
SCPI transport (`send`/`query`).  We embed the command/state layer shallowly:

* numeric values are rationals (`ℚ`); Python's `f"{x:.3f}"` formatting is
  `fmt3`, which rounds to thousandths (ties are immaterial to the claims and
  never arise exactly on binary doubles anyway);
* `str.split` / `float()` / `int()` are embedded as executable functions on
  character lists;
* the shared SCPI client is a state-and-trace monad `M`: every `send`/`query`
  appends the exact wire command to a trace, and a small stub device state
  answers queries; a fault knob lets a stub transport raise `SCPIError` at a
  chosen point, modelling transport failures;
* Python's `try/finally` (the `@contextmanager` pattern of the source) is
  `tryFinally`; exceptions, including cancellation (`GeneratorExit`), are an
  `Except PyExc` result channel.
-/

/-! ### Decimal digits, Python `str` of numbers, `float()` and `int()` -/

/-- The ASCII digit character for `d` (meaningful for `d < 10`). -/
def digitChar (d : Nat) : Char := Char.ofNat (48 + d)

/-- Decimal digits of `n`, most significant first, with explicit fuel
(`fuel > number of digits` suffices; we always call it with `fuel = n + 1`). -/
def natToChars : Nat → Nat → List Char
  | 0, _ => []
  | fuel+1, n =>
    if n < 10 then [digitChar n]
    else natToChars fuel (n / 10) ++ [digitChar (n % 10)]

/-- Python `str(n)` for a natural number. -/
def natToStr (n : Nat) : String := ⟨natToChars (n + 1) n⟩

/-- Python `str(n)` / f-string formatting of an integer. -/
def intToStr (n : Int) : String :=
  if n < 0 then "-" ++ natToStr n.natAbs else natToStr n.natAbs

/-- Numeric value of an ASCII digit character, `none` for non-digits. -/
def digitVal (c : Char) : Option Nat :=
  if '0' ≤ c ∧ c ≤ '9' then some (c.toNat - 48) else none

/-- Left-to-right accumulation of decimal digits; `none` on a non-digit. -/
def digitsValAux : List Char → Nat → Option Nat
  | [], acc => some acc
  | c :: cs, acc =>
    match digitVal c with
    | some d => digitsValAux cs (10 * acc + d)
    | none => none

/-- Value of a string of decimal digits (`some 0` on the empty list, callers
guard emptiness where Python would reject it). -/
def digitsVal (l : List Char) : Option Nat := digitsValAux l 0

/-- Python `s.split(sep)` (single-character separator, no maxsplit):
always returns at least one part, empty parts included. -/
def splitOnChar (sep : Char) : List Char → List (List Char)
  | [] => [[]]
  | c :: cs =>
    if c = sep then [] :: splitOnChar sep cs
    else
      match splitOnChar sep cs with
      | [] => [[c]]
      | t :: ts => (c :: t) :: ts

/-- Python `s.split(sep, maxsplit=1)` when the separator occurs
(`none` when it does not, where unpacking into two names raises). -/
def splitFirst (sep : Char) : List Char → Option (List Char × List Char)
  | [] => none
  | c :: cs =>
    if c = sep then some ([], cs)
    else (splitFirst sep cs).map (fun p => (c :: p.1, p.2))

/-- Magnitude part of Python `float(s)`: digits, optionally with one dot.
Faithful on the shapes the device and the library exchange. -/
def pyFloatMag (l : List Char) : Option ℚ :=
  match splitOnChar '.' l with
  | [ds] =>
    if ds = [] then none
    else (digitsVal ds).map (fun n => (n : ℚ))
  | [ds, fs] =>
    if ds = [] ∧ fs = [] then none
    else
      match digitsVal ds, digitsVal fs with
      | some i, some f => some ((i : ℚ) + (f : ℚ) / 10 ^ fs.length)
      | _, _ => none
  | _ => none

/-- Python `float(s)` on a character list, with an optional leading minus. -/
def pyFloatChars (l : List Char) : Option ℚ :=
  if l.head? = some '-' then (pyFloatMag l.tail).map (fun q => -q)
  else pyFloatMag l

/-- Python `float(s)`. -/
def pyFloat (s : String) : Option ℚ := pyFloatChars s.data

/-- Python `int(s)` on a character list. -/
def pyIntChars (l : List Char) : Option Int :=
  if l.head? = some '-' then
    if l.tail = [] then none
    else (digitsVal l.tail).map (fun n => -(n : Int))
  else if l = [] then none
  else (digitsVal l).map (fun n => (n : Int))

/-- Python `int(s)`. -/
def pyInt (s : String) : Option Int := pyIntChars s.data

/-- Three zero-padded decimal digits of `k` (meaningful for `k < 1000`):
the fractional part produced by `%.3f` formatting. -/
def pad3 (k : Nat) : List Char :=
  [digitChar (k / 100 % 10), digitChar (k / 10 % 10), digitChar (k % 10)]

/-- Python `f"{x:.3f}"`: fixed-point rendering with exactly three fractional
digits, on the rational embedding of the float value. -/
def fmt3 (x : ℚ) : String :=
  let n : Int := round (1000 * x)
  ⟨(if n < 0 then ['-'] else []) ++
    natToChars (n.natAbs / 1000 + 1) (n.natAbs / 1000) ++
    '.' :: pad3 (n.natAbs % 1000)⟩

/-- The value `x` rounded to three decimal places: the value that `%.3f`
formatting puts on the wire. -/
def q3 (x : ℚ) : ℚ := (round (1000 * x) : ℚ) / 1000

/-! ### The SCPI transport / stub device model -/

/-- Python exception kinds that the embedded code can surface.
`genExit` models `GeneratorExit`, i.e. cancellation of a scoped session. -/
inductive PyExc where
  | scpiError
  | attrError
  | assertError
  | valueError
  | genExit
deriving DecidableEq, Repr

/-- Observable state of the stub device.  The analyzer's on/off and logging
states are kept as the raw text the device would report (`"1"`/`"0"` in
practice, but arbitrary text is allowed so that parsing behaviour is honest). -/
structure DevState where
  activeText : String
  logText : String
  brightness : Nat
  beeper : Bool
  measAll : String
deriving DecidableEq, Repr

/-- State threaded through every SCPI interaction: the full ordered trace of
wire commands (sends and queries alike), the stub device, and an optional
fault injection point: the transport raises on the command whose 0-based
position in the trace would be `failAt`. -/
structure ScpiState where
  trace : List String
  device : DevState
  failAt : Option Nat
deriving DecidableEq, Repr

/-- Computations of the embedded library: state transformer with a Python
exception channel.  State (trace and device) is preserved across a raise. -/
def M (α : Type) : Type := ScpiState → ScpiState × Except PyExc α

/-- Sequencing with Python exception semantics: a raised exception skips the
continuation. -/
def M.bind {α β : Type} (x : M α) (f : α → M β) : M β := fun s =>
  match x s with
  | (s1, Except.ok a) => f a s1
  | (s1, Except.error e) => (s1, Except.error e)

instance : Monad M where
  pure a := fun s => (s, Except.ok a)
  bind := M.bind

/-- Python `raise`. -/
def raise {α : Type} (e : PyExc) : M α := fun s => (s, Except.error e)

/-- Python `try: body finally: fin`: `fin` runs on every exit path; an
exception raised by `fin` itself replaces the pending result. -/
def pyFinally {α : Type} (body : M α) (fin : M Unit) : M α := fun s =>
  let r := body s
  match fin r.1 with
  | (s2, Except.ok _) => (s2, r.2)
  | (s2, Except.error e) => (s2, Except.error e)

/-- Embeds `SCPIClient.send cmd`: appends `cmd` to the trace and applies the stub
device's reaction `upd`; raises `SCPIError` at an injected fault point. -/
def scpiSendTo (cmd : String) (upd : DevState → DevState) : M Unit := fun s =>
  if s.failAt = some s.trace.length then (s, Except.error PyExc.scpiError)
  else ({ s with trace := s.trace ++ [cmd], device := upd s.device }, Except.ok ())

/-- Embeds `SCPIClient.query cmd`: appends `cmd` to the trace and returns the stub
device's response `read`; raises `SCPIError` at an injected fault point. -/
def scpiQueryFrom (cmd : String) (read : DevState → String) : M String := fun s =>
  if s.failAt = some s.trace.length then (s, Except.error PyExc.scpiError)
  else ({ s with trace := s.trace ++ [cmd], device := s.device }, Except.ok (read s.device))

/-- A Python value whose truthiness matters (`'1' if enabled else '0'` is
applied to a `bool` in one call site and to a `str` in another). -/
inductive PyVal where
  | bool (b : Bool)
  | str (s : String)
deriving DecidableEq, Repr

/-- Python truthiness of the values above: a string is truthy iff nonempty. -/
def pyTruthy : PyVal → Bool
  | PyVal.bool b => b
  | PyVal.str s => s ≠ ""

/-! ### `channel.py` -/

/-- Enumeration `OutputMode` exactly as written in the source, including the
transcription slip: `ConstantCurrent` is assigned the wire code `"CV"`
(`ConstantVoltage`'s code), not `"CC"`. -/
inductive OutputMode where
  | ConstantVoltage
  | ConstantCurrent
  | Unregulated
deriving DecidableEq, Repr

/-- The wire code each `OutputMode` member is assigned in the source. -/
def OutputMode.wireValue : OutputMode → String
  | OutputMode.ConstantVoltage => "CV"
  | OutputMode.ConstantCurrent => "CV"
  | OutputMode.Unregulated => "UR"

/-- Members in definition order, for Python `Enum` value lookup (a duplicate
value makes the later member an alias: lookup returns the first match). -/
def OutputMode.members : List OutputMode :=
  [OutputMode.ConstantVoltage, OutputMode.ConstantCurrent, OutputMode.Unregulated]

/-- Python `OutputMode(value)`: first member (definition order) with that
value, `none` where Python raises `ValueError`. -/
def outputModeOfWire (s : String) : Option OutputMode :=
  OutputMode.members.find? (fun m => m.wireValue == s)

/-- Embeds `namedtuple Output(voltage, current)`. -/
structure Output where
  voltage : ℚ
  current : ℚ
deriving DecidableEq, Repr

/-- Embeds `namedtuple Measurement(voltage, current, power)`. -/
structure Measurement where
  voltage : ℚ
  current : ℚ
  power : ℚ
deriving DecidableEq, Repr

/-- Embeds `OverProtectiveParent._source_id`: `f":SOURCe[{channel}]"`. -/
def sourceId (channel : Nat) : String := ":SOURCe[" ++ natToStr channel ++ "]"

/-- Embeds `OverProtectiveParent.state` setter:
`:SOURCe[i]:<prot>:PROT:STAT {ON,OFF}`.  Protection arming is not part of the
stub device state, so the device reaction is the identity. -/
def protStateSet (channel : Nat) (protecting : String) (value : Bool) : M Unit :=
  scpiSendTo (sourceId channel ++ ":" ++ protecting ++ ":PROT:STAT " ++
    (if value then "ON" else "OFF")) id

/-- Embeds `OverProtectiveParent.level` setter: `:SOURCe[i]:<prot>:PROT {value:.3f}`. -/
def protLevelSet (channel : Nat) (protecting : String) (value : ℚ) : M Unit :=
  scpiSendTo (sourceId channel ++ ":" ++ protecting ++ ":PROT " ++ fmt3 value) id

/-- Embeds `OverProtectiveParent.clear`: `:SOURCe[i]:<prot>:PROT:CLE`. -/
def protClear (channel : Nat) (protecting : String) : M Unit :=
  scpiSendTo (sourceId channel ++ ":" ++ protecting ++ ":PROT:CLE") id

/-- Embeds `OverProtectiveParent.__call__`, the scoped protection session
(`run_protected` of the spec): `try: clear; level = l; state = True; yield
body finally: state = False`. -/
def runProtected {α : Type} (channel : Nat) (protecting : String) (level : ℚ)
    (body : M α) : M α :=
  pyFinally
    (do
      protClear channel protecting
      protLevelSet channel protecting level
      protStateSet channel protecting true
      body)
    (protStateSet channel protecting false)

/-- Embeds `Channel.output` setter: `:APPL CH{i},{voltage:.3f},{current:.3f}`. -/
def outputSet (channel : Nat) (output : Output) : M Unit :=
  scpiSendTo (":APPL CH" ++ natToStr channel ++ "," ++ fmt3 output.voltage ++
    "," ++ fmt3 output.current) id

/-- Embeds `Channel.enabled` setter: `:OUTP CH{i},{ON,OFF}`. -/
def enabledSet (channel : Nat) (value : Bool) : M Unit :=
  scpiSendTo (":OUTP CH" ++ natToStr channel ++ "," ++
    (if value then "ON" else "OFF")) id

/-- Embeds `Channel.enable`. -/
def enable (channel : Nat) : M Unit := enabledSet channel true

/-- Embeds `Channel.disable`. -/
def disable (channel : Nat) : M Unit := enabledSet channel false

/-- Parsing part of the `Channel.output` getter: split the `:APPL? CH{i}`
response on the first `:`, then the remainder on `,` into exactly three
fields, discarding the first; `float()` the set-points. -/
def parseApplResponse (response : String) : Except PyExc Output :=
  match splitFirst ':' response.data with
  | none => Except.error PyExc.valueError
  | some (_, rest) =>
    match splitOnChar ',' rest with
    | [_, sv, sc] =>
      match pyFloatChars sv, pyFloatChars sc with
      | some v, some c => Except.ok (Output.mk v c)
      | _, _ => Except.error PyExc.valueError
    | _ => Except.error PyExc.valueError

/-- Embeds `Channel.probe`: query `MEAS:ALL? CH{i}`, split on `,` into exactly three
fields and `float()` each. -/
def probe (channel : Nat) : M Measurement := do
  let r ← scpiQueryFrom ("MEAS:ALL? CH" ++ natToStr channel) (fun d => d.measAll)
  match splitOnChar ',' r.data with
  | [a, b, c] =>
    match pyFloatChars a, pyFloatChars b, pyFloatChars c with
    | some v, some i, some p => pure (Measurement.mk v i p)
    | _, _, _ => raise PyExc.valueError
  | _ => raise PyExc.valueError

/-- Embeds `Channel.__call__`, the scoped activation session (`run_active` of the
spec): `try: output = o; enable; yield body finally: disable`. -/
def runActive {α : Type} (channel : Nat) (output : Output) (body : M α) : M α :=
  pyFinally
    (do
      outputSet channel output
      enable channel
      body)
    (disable channel)

/-- Parsing part of the `Channel.output_mode` getter: Python enum lookup of
the `:OUTP:MODE? CH{i}` response, `ValueError` on an unknown code. -/
def parseOutputMode (response : String) : Except PyExc OutputMode :=
  match outputModeOfWire response with
  | some m => Except.ok m
  | none => Except.error PyExc.valueError

/-! ### `analyzer.py` -/

/-- Embeds `AnalysisType` enumeration. -/
inductive AnalysisType where
  | Common
  | PulseCurrent
deriving DecidableEq, Repr

/-- Wire value of an `AnalysisType`. -/
def AnalysisType.value : AnalysisType → String
  | AnalysisType.Common => "COM"
  | AnalysisType.PulseCurrent => "CURR"

/-- Embeds `CommonAnalysisType` enumeration. -/
inductive CommonAnalysisType where
  | Voltage
  | Current
  | Power
deriving DecidableEq, Repr

/-- Wire value of a `CommonAnalysisType`. -/
def CommonAnalysisType.value : CommonAnalysisType → String
  | CommonAnalysisType.Voltage => "V"
  | CommonAnalysisType.Current => "C"
  | CommonAnalysisType.Power => "P"

/-- Members in definition order, for Python `Enum` value lookup. -/
def CommonAnalysisType.members : List CommonAnalysisType :=
  [CommonAnalysisType.Voltage, CommonAnalysisType.Current, CommonAnalysisType.Power]

/-- Python `CommonAnalysisType(value)`. -/
def commonAnalysisTypeOfWire (s : String) : Option CommonAnalysisType :=
  CommonAnalysisType.members.find? (fun m => m.value == s)

/-- Embeds `dataclass CommonAnalysis`. -/
structure CommonAnalysis where
  ch1 : Option CommonAnalysisType := none
  ch2 : Option CommonAnalysisType := none
  ch3 : Option CommonAnalysisType := none
deriving DecidableEq, Repr

/-- Embeds `dataclass PulseCurrentAnalysis`. -/
structure PulseCurrentAnalysis where
  ch1 : Bool := true
  ch2 : Bool := true
deriving DecidableEq, Repr

/-- Embeds `AnalyzerAPI.log` getter: returns the query response **unchanged** (the
source annotates `-> bool` but never converts the text). -/
def logGet : M String := scpiQueryFrom ":ANALyzer:SAVE:STATe?" (fun d => d.logText)

/-- Embeds `AnalyzerAPI.log` setter: `:ANALyzer:SAVE:STATe {1,0}` by truthiness of
the assigned value; the stub device records the new logging state text. -/
def logSet (enabled : PyVal) : M Unit :=
  scpiSendTo (":ANALyzer:SAVE:STATe " ++ (if pyTruthy enabled then "1" else "0"))
    (fun d => { d with logText := if pyTruthy enabled then "1" else "0" })

/-- Embeds `AnalyzerAPI.active` getter: response compared with `"1"`. -/
def activeGet : M Bool := do
  let r ← scpiQueryFrom ":ANALyzer:STATe?" (fun d => d.activeText)
  pure (r == "1")

/-- Embeds `AnalyzerAPI.active` setter: `:ANALyzer:STATe {1,0}`. -/
def activeSet (enabled : Bool) : M Unit :=
  scpiSendTo (":ANALyzer:STATe " ++ (if enabled then "1" else "0"))
    (fun d => { d with activeText := if enabled then "1" else "0" })

/-- Embeds `AnalyzerAPI.type` setter: `:ANALyzer:TYPE {COM,CURR}`. -/
def typeSet (t : AnalysisType) : M Unit :=
  scpiSendTo (":ANALyzer:TYPE " ++ t.value) id

/-- Command parts `CH{i}_{value}` for the configured channels of a
`CommonAnalysis` (unset channels are skipped). -/
def commonParts (config : CommonAnalysis) : List String :=
  (match config.ch1 with
   | some t => ["CH1_" ++ t.value]
   | none => []) ++
  (match config.ch2 with
   | some t => ["CH2_" ++ t.value]
   | none => []) ++
  (match config.ch3 with
   | some t => ["CH3_" ++ t.value]
   | none => [])

/-- Embeds `AnalyzerAPI.set_common_measure`. -/
def setCommonMeasure (config : CommonAnalysis) : M Unit := do
  typeSet AnalysisType.Common
  scpiSendTo (":ANALyzer:COMMon:MEASure:TYPE " ++
    String.intercalate "," (commonParts config)) id

/-- Enabled channel tags of a `PulseCurrentAnalysis`. -/
def pulseParts (config : PulseCurrentAnalysis) : List String :=
  (if config.ch1 then ["CH1"] else []) ++ (if config.ch2 then ["CH2"] else [])

/-- Embeds `AnalyzerAPI.set_current_measure`: selects the pulse-current type
**first**, then validates that at least one channel is enabled (raising
`AttributeError` — the spec's `InvalidArgument`), then sends the
measure-type command. -/
def setCurrentMeasure (config : PulseCurrentAnalysis) : M Unit := do
  typeSet AnalysisType.PulseCurrent
  if !(config.ch1 || config.ch2) then raise PyExc.attrError
  else
    scpiSendTo (":ANALyzer:CURRent:MEASure:TYPE " ++
      String.intercalate "," (pulseParts config)) id

/-- One step of the `get_common_measure` parsing loop, folded over the
space-separated tokens; the dataclass mutation of the source becomes an
accumulator. -/
def parseCommonItems : List String → CommonAnalysis → Except PyExc CommonAnalysis
  | [], acc => Except.ok acc
  | item :: rest, acc =>
    match splitOnChar '_' item.data with
    | [channelChars, typeChars] =>
      let channel : String := ⟨channelChars⟩
      if channel = "CH1" then
        match commonAnalysisTypeOfWire ⟨typeChars⟩ with
        | some t => parseCommonItems rest { acc with ch1 := some t }
        | none => Except.error PyExc.valueError
      else if channel = "CH2" then
        match commonAnalysisTypeOfWire ⟨typeChars⟩ with
        | some t => parseCommonItems rest { acc with ch2 := some t }
        | none => Except.error PyExc.valueError
      else if channel = "CH3" then
        match commonAnalysisTypeOfWire ⟨typeChars⟩ with
        | some t => parseCommonItems rest { acc with ch3 := some t }
        | none => Except.error PyExc.valueError
      else Except.error PyExc.assertError
    | _ => Except.error PyExc.valueError

/-- Parsing part of `AnalyzerAPI.get_common_measure`: split the response on
spaces, split each token on `_` into a channel tag and a type code; a channel
tag other than CH1/CH2/CH3 hits the `raise AssertionError` branch (the
spec's `ProtocolViolation`). -/
def getCommonMeasure (response : String) : Except PyExc CommonAnalysis :=
  parseCommonItems ((splitOnChar ' ' response.data).map (fun l => (⟨l⟩ : String)))
    (CommonAnalysis.mk none none none)

/-- Argument of `AnalyzerAPI.analyze`: `CommonAnalysis | PulseCurrentAnalysis`. -/
def AnalyzeConfig : Type := CommonAnalysis ⊕ PulseCurrentAnalysis

/-- Embeds `AnalyzerAPI.analyze`, the scoped analyzer session (`run_session` of the
spec): captures the raw logging text and the active flag, applies the
configuration, optionally turns logging on, activates, runs the body; the
`finally` block always restores `active` and, only when `log` was requested,
assigns the captured logging **text** back through the truthiness-based
setter. -/
def analyze {α : Type} (config : AnalyzeConfig) (log : Bool) (body : M α) : M α := do
  let initialLog ← logGet
  let initialActive ← activeGet
  pyFinally
    (do
      (match config with
       | Sum.inl c => setCommonMeasure c
       | Sum.inr p => setCurrentMeasure p)
      (if log then logSet (PyVal.bool true) else pure ())
      activeSet true
      body)
    (do
      activeSet initialActive
      if log then logSet (PyVal.str initialLog) else pure ())

/-! ### `rigol_dp932a.py` -/

/-- Embeds `RigolDP932A.display_brightness` getter: `int(query(":SYST:BRIG?"))`. -/
def displayBrightnessGet : M Int := do
  let r ← scpiQueryFrom ":SYST:BRIG?" (fun d => natToStr d.brightness)
  match pyIntChars r.data with
  | some n => pure n
  | none => raise PyExc.valueError

/-- Embeds `RigolDP932A.display_brightness` setter: `:SYST:BRIG {n}`. -/
def displayBrightnessSet (brightness : Int) : M Unit :=
  scpiSendTo (":SYST:BRIG " ++ intToStr brightness) id

/-- Embeds `RigolDP932A.beeper` getter: response compared with `"1"`. -/
def beeperGet : M Bool := do
  let r ← scpiQueryFrom ":SYST:BEEP?" (fun d => if d.beeper then "1" else "0")
  pure (r == "1")

/-- Embeds `RigolDP932A.beeper` setter: `:SYST:BEEP {ON,OFF}`. -/
def beeperSet (value : Bool) : M Unit :=
  scpiSendTo (":SYST:BEEP " ++ (if value then "ON" else "OFF"))
    (fun d => { d with beeper := value })

/-- Embeds `RigolDP932A.beep`: `:SYSTem:BEEPer:IMMediate`. -/
def beep : M Unit := scpiSendTo ":SYSTem:BEEPer:IMMediate" id

/-- The inner `blink` of `look_at_me`: brightness to 100, then to 10 (the
wall-clock sleeps are not part of the wire behaviour). -/
def blink : M Unit := do
  displayBrightnessSet 100
  displayBrightnessSet 10

/-- Embeds `RigolDP932A.look_at_me` (`attention_sequence` of the spec): read the
current brightness and beeper state, `for _ in range(3): blink; beep; blink`
(unrolled), then write both saved values back.  The restore steps are plain
trailing statements — there is no `try/finally` in this method. -/
def lookAtMe : M Unit := do
  let initialBrightness ← displayBrightnessGet
  let initialBeeper ← beeperGet
  blink; beep; blink
  blink; beep; blink
  blink; beep; blink
  displayBrightnessSet initialBrightness
  beeperSet initialBeeper

/-! ### Support definitions used only in claim statements -/

/-- A response token whose underscore-split has exactly two parts and whose
channel tag is none of CH1/CH2/CH3 (the shape the spec calls a
`ProtocolViolation`). -/
def badToken (item : String) : Prop :=
  ∃ cs ts : List Char, splitOnChar '_' item.data = [cs, ts] ∧
    (⟨cs⟩ : String) ≠ "CH1" ∧ (⟨cs⟩ : String) ≠ "CH2" ∧ (⟨cs⟩ : String) ≠ "CH3"

/-- A computation that leaves the device's logging state as it found it
(its net effect on `logText` is nil), whatever else it does. -/
def PreservesLog {α : Type} (m : M α) : Prop :=
  ∀ s : ScpiState, ((m s).1).device.logText = s.device.logText

/-! ### Arithmetic and rendering lemmas -/

theorem digitVal_digitChar (d : Nat) (h : d < 10) : digitVal (digitChar d) = some d := by
  interval_cases d <;> decide

theorem digitChar_ne (d : Nat) (h : d < 10) :
    digitChar d ≠ '.' ∧ digitChar d ≠ ',' ∧ digitChar d ≠ '-' ∧ digitChar d ≠ ':' := by
  interval_cases d <;> decide

theorem mem_natToChars : ∀ (fuel n : Nat) (c : Char), c ∈ natToChars fuel n →
    ∃ d : Nat, d < 10 ∧ c = digitChar d := by
  intro fuel
  induction fuel with
  | zero => intro n c h; simp [natToChars] at h
  | succ k ih =>
    intro n c h
    by_cases hn : n < 10
    · simp [natToChars, hn] at h
      exact ⟨n, hn, h⟩
    · simp [natToChars, hn] at h
      rcases h with h | h
      · exact ih _ _ h
      · exact ⟨n % 10, Nat.mod_lt _ (by norm_num), h⟩

theorem natToChars_ne_nil (fuel n : Nat) (h : fuel ≠ 0) : natToChars fuel n ≠ [] := by
  cases fuel with
  | zero => exact absurd rfl h
  | succ k => by_cases hn : n < 10 <;> simp [natToChars, hn]

theorem digitsValAux_append : ∀ (a b : List Char) (acc : Nat),
    digitsValAux (a ++ b) acc = (digitsValAux a acc).bind (fun m => digitsValAux b m) := by
  intro a
  induction a with
  | nil => intro b acc; simp [digitsValAux]
  | cons c cs ih =>
    intro b acc
    cases hc : digitVal c <;> simp [digitsValAux, hc, ih]

theorem digitsValAux_natToChars : ∀ (fuel n acc : Nat), n < 10 ^ fuel →
    digitsValAux (natToChars fuel n) acc =
      some (acc * 10 ^ (natToChars fuel n).length + n) := by
  intro fuel
  induction fuel with
  | zero =>
    intro n acc h
    interval_cases n
    simp [natToChars, digitsValAux]
  | succ k ih =>
    intro n acc h
    by_cases hn : n < 10
    · simp [natToChars, hn, digitsValAux, digitVal_digitChar n hn]
      ring
    · have hdiv : n / 10 < 10 ^ k := by
        rw [Nat.div_lt_iff_lt_mul (by norm_num)]
        calc n < 10 ^ (k + 1) := h
          _ = 10 ^ k * 10 := pow_succ 10 k
      simp only [natToChars, if_neg hn, digitsValAux_append, ih (n / 10) acc hdiv,
        Option.some_bind, List.length_append, List.length_singleton]
      simp [digitsValAux, digitVal_digitChar (n % 10) (Nat.mod_lt _ (by norm_num))]
      rw [pow_succ, ← mul_assoc]
      have hdm : 10 * (n / 10) + n % 10 = n := Nat.div_add_mod n 10
      generalize acc * 10 ^ (natToChars k (n / 10)).length = X
      omega

theorem lt_ten_pow (n : Nat) : n < 10 ^ (n + 1) := by
  induction n with
  | zero => norm_num
  | succ k ih =>
    have hB : 10 ^ (k + 2) = 10 ^ (k + 1) * 10 := pow_succ 10 (k + 1)
    omega

theorem digitsVal_natToChars (n : Nat) : digitsVal (natToChars (n + 1) n) = some n := by
  unfold digitsVal
  rw [digitsValAux_natToChars (n + 1) n 0 (lt_ten_pow n)]
  simp

theorem pyIntChars_natToStr (n : Nat) : pyIntChars (natToStr n).data = some (n : Int) := by
  show pyIntChars (natToChars (n + 1) n) = some (n : Int)
  rcases hL : natToChars (n + 1) n with _ | ⟨c, cs⟩
  · exact absurd hL (natToChars_ne_nil _ _ (Nat.succ_ne_zero n))
  · have hc : c ∈ natToChars (n + 1) n := by rw [hL]; exact List.mem_cons_self _ _
    obtain ⟨d, hd, rfl⟩ := mem_natToChars _ _ _ hc
    have hv := digitsVal_natToChars n
    rw [hL] at hv
    simp [pyIntChars, (digitChar_ne d hd).2.2.1, hv]

theorem intToStr_ofNat (n : Nat) : intToStr (n : Int) = natToStr n := by
  simp [intToStr, Int.natAbs_ofNat]

theorem splitOnChar_of_not_mem (sep : Char) : ∀ l : List Char, sep ∉ l →
    splitOnChar sep l = [l] := by
  intro l
  induction l with
  | nil => intro _; rfl
  | cons c cs ih =>
    intro h
    have hc : ¬(c = sep) := fun he => h (he ▸ List.mem_cons_self _ _)
    have hcs : sep ∉ cs := fun hm => h (List.mem_cons_of_mem _ hm)
    simp [splitOnChar, hc, ih hcs]

theorem splitOnChar_append (sep : Char) : ∀ (a b : List Char), sep ∉ a →
    splitOnChar sep (a ++ sep :: b) = a :: splitOnChar sep b := by
  intro a
  induction a with
  | nil => intro b _; simp [splitOnChar]
  | cons c cs ih =>
    intro b h
    have hc : ¬(c = sep) := fun he => h (he ▸ List.mem_cons_self _ _)
    have hcs : sep ∉ cs := fun hm => h (List.mem_cons_of_mem _ hm)
    simp [splitOnChar, hc, ih b hcs]

theorem splitFirst_append (sep : Char) : ∀ (a b : List Char), sep ∉ a →
    splitFirst sep (a ++ sep :: b) = some (a, b) := by
  intro a
  induction a with
  | nil => intro b _; simp [splitFirst]
  | cons c cs ih =>
    intro b h
    have hc : ¬(c = sep) := fun he => h (he ▸ List.mem_cons_self _ _)
    have hcs : sep ∉ cs := fun hm => h (List.mem_cons_of_mem _ hm)
    simp [splitFirst, hc, ih b hcs]

theorem digitsVal_pad3 (k : Nat) (h : k < 1000) : digitsVal (pad3 k) = some k := by
  have h2 : k / 100 % 10 < 10 := Nat.mod_lt _ (by norm_num)
  have h1 : k / 10 % 10 < 10 := Nat.mod_lt _ (by norm_num)
  have h0 : k % 10 < 10 := Nat.mod_lt _ (by norm_num)
  simp [digitsVal, pad3, digitsValAux, digitVal_digitChar _ h2,
    digitVal_digitChar _ h1, digitVal_digitChar _ h0]
  omega

theorem mem_pad3 (k : Nat) (c : Char) (h : c ∈ pad3 k) :
    ∃ d : Nat, d < 10 ∧ c = digitChar d := by
  simp [pad3] at h
  rcases h with h | h | h
  · exact ⟨k / 100 % 10, Nat.mod_lt _ (by norm_num), h⟩
  · exact ⟨k / 10 % 10, Nat.mod_lt _ (by norm_num), h⟩
  · exact ⟨k % 10, Nat.mod_lt _ (by norm_num), h⟩

theorem dot_not_mem_natToChars (fuel n : Nat) : '.' ∉ natToChars fuel n := by
  intro h
  obtain ⟨d, hd, he⟩ := mem_natToChars _ _ _ h
  exact (digitChar_ne d hd).1 he.symm

theorem dot_not_mem_pad3 (k : Nat) : '.' ∉ pad3 k := by
  intro h
  obtain ⟨d, hd, he⟩ := mem_pad3 _ _ h
  exact (digitChar_ne d hd).1 he.symm

theorem pyFloatMag_digits (i f : Nat) (hf : f < 1000) :
    pyFloatMag (natToChars (i + 1) i ++ '.' :: pad3 f) =
      some ((i : ℚ) + (f : ℚ) / 1000) := by
  unfold pyFloatMag
  rw [splitOnChar_append '.' _ _ (dot_not_mem_natToChars _ _),
      splitOnChar_of_not_mem '.' _ (dot_not_mem_pad3 f)]
  have hne : natToChars (i + 1) i ≠ [] := natToChars_ne_nil _ _ (Nat.succ_ne_zero i)
  simp only [hne, digitsVal_natToChars i, digitsVal_pad3 f hf,
    show (pad3 f).length = 3 from rfl]
  norm_num

theorem fmt3_data (x : ℚ) : (fmt3 x).data =
    (if round (1000 * x) < 0 then ['-'] else []) ++
      natToChars ((round (1000 * x)).natAbs / 1000 + 1) ((round (1000 * x)).natAbs / 1000) ++
      '.' :: pad3 ((round (1000 * x)).natAbs % 1000) := rfl

theorem natCast_div_add_mod_thousand (m : Nat) :
    ((m / 1000 : ℕ) : ℚ) + ((m % 1000 : ℕ) : ℚ) / 1000 = (m : ℚ) / 1000 := by
  have hdm := congrArg (fun k : ℕ => (k : ℚ)) (Nat.div_add_mod m 1000)
  push_cast at hdm
  rw [← hdm]
  ring

theorem pyFloatChars_cons_neg (rest : List Char) :
    pyFloatChars ('-' :: rest) = (pyFloatMag rest).map (fun q => -q) := rfl

theorem pyFloatChars_cons_of_ne (c : Char) (rest : List Char) (h : c ≠ '-') :
    pyFloatChars (c :: rest) = pyFloatMag (c :: rest) := by
  simp [pyFloatChars, h]

theorem pyFloatChars_fmt3 (x : ℚ) : pyFloatChars (fmt3 x).data = some (q3 x) := by
  have hf : (round (1000 * x)).natAbs % 1000 < 1000 := Nat.mod_lt _ (by norm_num)
  have hmag := pyFloatMag_digits ((round (1000 * x)).natAbs / 1000)
    ((round (1000 * x)).natAbs % 1000) hf
  have hmq := natCast_div_add_mod_thousand (round (1000 * x)).natAbs
  by_cases hneg : round (1000 * x) < 0
  · have habsq : (((round (1000 * x)).natAbs : ℕ) : ℚ) = -((round (1000 * x) : ℤ) : ℚ) := by
      rw [Int.cast_natAbs, abs_of_neg hneg, Int.cast_neg]
    rw [fmt3_data, if_pos hneg, List.singleton_append, List.cons_append,
      pyFloatChars_cons_neg, hmag, hmq, habsq]
    simp [q3, neg_div]
  · have habsq : (((round (1000 * x)).natAbs : ℕ) : ℚ) = ((round (1000 * x) : ℤ) : ℚ) := by
      rw [Int.cast_natAbs, abs_of_nonneg (not_lt.mp hneg)]
    rw [fmt3_data, if_neg hneg, List.nil_append]
    rcases hL : natToChars ((round (1000 * x)).natAbs / 1000 + 1)
        ((round (1000 * x)).natAbs / 1000) with _ | ⟨c, cs⟩
    · exact absurd hL (natToChars_ne_nil _ _ (Nat.succ_ne_zero _))
    · have hc : c ∈ natToChars ((round (1000 * x)).natAbs / 1000 + 1)
          ((round (1000 * x)).natAbs / 1000) := by
        rw [hL]; exact List.mem_cons_self _ _
      obtain ⟨d, hd, rfl⟩ := mem_natToChars _ _ _ hc
      rw [List.cons_append,
        pyFloatChars_cons_of_ne _ _ (digitChar_ne d hd).2.2.1,
        ← List.cons_append, ← hL, hmag, hmq, habsq]
      simp [q3]

theorem round_q3 (x : ℚ) : round (1000 * q3 x) = round (1000 * x) := by
  have h : (1000 : ℚ) * q3 x = ((round (1000 * x) : ℤ) : ℚ) := by
    unfold q3; ring
  rw [h, round_intCast]

theorem fmt3_q3 (x : ℚ) : fmt3 (q3 x) = fmt3 x := by
  simp only [fmt3, round_q3]

theorem mem_fmt3 (x : ℚ) (c : Char) (h : c ∈ (fmt3 x).data) :
    c = '-' ∨ c = '.' ∨ ∃ d : Nat, d < 10 ∧ c = digitChar d := by
  rw [fmt3_data] at h
  rcases List.mem_append.mp h with h1 | h2
  · rcases List.mem_append.mp h1 with h3 | h4
    · by_cases hn : round (1000 * x) < 0
      · rw [if_pos hn] at h3
        left
        simpa using h3
      · rw [if_neg hn] at h3
        simp at h3
    · right; right; exact mem_natToChars _ _ _ h4
  · rcases List.mem_cons.mp h2 with rfl | h5
    · right; left; rfl
    · right; right; exact mem_pad3 _ _ h5

theorem comma_not_mem_fmt3 (x : ℚ) : ',' ∉ (fmt3 x).data := by
  intro h
  rcases mem_fmt3 x ',' h with h | h | ⟨d, hd, he⟩
  · exact absurd h (by decide)
  · exact absurd h (by decide)
  · exact (digitChar_ne d hd).2.1 he.symm

theorem fmt3_shape (x : ℚ) : ∃ ip fp : List Char, (fmt3 x).data = ip ++ '.' :: fp ∧
    fp.length = 3 ∧ '.' ∉ ip ∧ '.' ∉ fp := by
  refine ⟨(if round (1000 * x) < 0 then ['-'] else []) ++
    natToChars ((round (1000 * x)).natAbs / 1000 + 1) ((round (1000 * x)).natAbs / 1000),
    pad3 ((round (1000 * x)).natAbs % 1000), fmt3_data x, rfl, ?_, dot_not_mem_pad3 _⟩
  intro hmem
  rcases List.mem_append.mp hmem with h | h
  · by_cases hn : round (1000 * x) < 0
    · rw [if_pos hn] at h
      simp only [List.mem_singleton] at h
      exact absurd h (by decide)
    · rw [if_neg hn] at h
      simp at h
  · exact dot_not_mem_natToChars _ _ h

theorem fmt3_five : fmt3 5 = "5.000" := by
  have h : round ((1000 : ℚ) * 5) = 5000 := by norm_num [round_eq]
  simp only [fmt3, h]
  decide

theorem fmt3_one : fmt3 1 = "1.000" := by
  have h : round ((1000 : ℚ) * 1) = 1000 := by norm_num [round_eq]
  simp only [fmt3, h]
  decide

/-! ### Evaluation lemmas for the transport monad -/

@[simp] theorem pure_apply {α : Type} (a : α) (s : ScpiState) :
    (pure a : M α) s = (s, Except.ok a) := rfl

@[simp] theorem bind_apply {α β : Type} (x : M α) (f : α → M β) (s : ScpiState) :
    (x >>= f) s =
      match x s with
      | (s1, Except.ok a) => f a s1
      | (s1, Except.error e) => (s1, Except.error e) := rfl

@[simp] theorem raise_apply {α : Type} (e : PyExc) (s : ScpiState) :
    (raise e : M α) s = (s, Except.error e) := rfl

@[simp] theorem scpiSendTo_apply (cmd : String) (upd : DevState → DevState)
    (tr : List String) (d : DevState) :
    scpiSendTo cmd upd ⟨tr, d, none⟩ = (⟨tr ++ [cmd], upd d, none⟩, Except.ok ()) := by
  simp [scpiSendTo]

@[simp] theorem scpiQueryFrom_apply (cmd : String) (rd : DevState → String)
    (tr : List String) (d : DevState) :
    scpiQueryFrom cmd rd ⟨tr, d, none⟩ = (⟨tr ++ [cmd], d, none⟩, Except.ok (rd d)) := by
  simp [scpiQueryFrom]

/-! ### Logging-state frame lemmas -/

theorem preservesLog_pure {α : Type} (a : α) : PreservesLog (pure a : M α) :=
  fun _ => rfl

theorem preservesLog_raise {α : Type} (e : PyExc) : PreservesLog (raise e : M α) :=
  fun _ => rfl

theorem preservesLog_bind {α β : Type} {x : M α} {f : α → M β}
    (hx : PreservesLog x) (hf : ∀ a, PreservesLog (f a)) : PreservesLog (x >>= f) := by
  intro s
  have h1 := hx s
  rcases hxs : x s with ⟨s1, r⟩
  rw [hxs] at h1
  cases r with
  | ok a =>
    have h2 := hf a s1
    simp only [bind_apply, hxs]
    exact h2.trans h1
  | error e =>
    simp only [bind_apply, hxs]
    exact h1

theorem preservesLog_pyFinally {α : Type} {b : M α} {f : M Unit}
    (hb : PreservesLog b) (hf : PreservesLog f) : PreservesLog (pyFinally b f) := by
  intro s
  have h1 := hb s
  unfold pyFinally
  rcases hbs : b s with ⟨s1, r⟩
  rw [hbs] at h1
  have h2 := hf s1
  rcases hfs : f s1 with ⟨s2, r2⟩
  rw [hfs] at h2
  cases r2 <;> simp [hbs, hfs] <;> exact h2.trans h1

theorem preservesLog_scpiSendTo (cmd : String) (upd : DevState → DevState)
    (h : ∀ d, (upd d).logText = d.logText) : PreservesLog (scpiSendTo cmd upd) := by
  intro s
  unfold scpiSendTo
  by_cases hc : s.failAt = some s.trace.length <;> simp [hc, h]

theorem preservesLog_scpiQueryFrom (cmd : String) (rd : DevState → String) :
    PreservesLog (scpiQueryFrom cmd rd) := by
  intro s
  unfold scpiQueryFrom
  by_cases hc : s.failAt = some s.trace.length <;> simp [hc]

theorem preservesLog_ite {α : Type} (c : Prop) [Decidable c] {x y : M α}
    (hx : PreservesLog x) (hy : PreservesLog y) : PreservesLog (if c then x else y) := by
  by_cases h : c
  · rwa [if_pos h]
  · rwa [if_neg h]

theorem preservesLog_activeSet (b : Bool) : PreservesLog (activeSet b) :=
  preservesLog_scpiSendTo _ _ (fun _ => rfl)

theorem preservesLog_typeSet (t : AnalysisType) : PreservesLog (typeSet t) :=
  preservesLog_scpiSendTo _ _ (fun _ => rfl)

theorem preservesLog_logGet : PreservesLog logGet :=
  preservesLog_scpiQueryFrom _ _

theorem preservesLog_activeGet : PreservesLog activeGet := by
  unfold activeGet
  exact preservesLog_bind (preservesLog_scpiQueryFrom _ _) (fun _ => preservesLog_pure _)

theorem preservesLog_setCommonMeasure (config : CommonAnalysis) :
    PreservesLog (setCommonMeasure config) := by
  unfold setCommonMeasure
  exact preservesLog_bind (preservesLog_typeSet _)
    (fun _ => preservesLog_scpiSendTo _ _ (fun _ => rfl))

theorem preservesLog_setCurrentMeasure (config : PulseCurrentAnalysis) :
    PreservesLog (setCurrentMeasure config) := by
  unfold setCurrentMeasure
  refine preservesLog_bind (preservesLog_typeSet _) (fun _ => ?_)
  exact preservesLog_ite _ (preservesLog_raise _)
    (preservesLog_scpiSendTo _ _ (fun _ => rfl))

/-! ### Claims -/

/-- Claim C3, counterexample: `set_current_measure` with both channels
disabled does NOT leave the trace empty — a command has already been sent
when the error is raised, so "sends no command" is false on the code. -/
theorem claim_C3_counterexample :
    (setCurrentMeasure (PulseCurrentAnalysis.mk false false)
        ⟨[], DevState.mk "0" "0" 50 true "", none⟩).1.trace ≠ [] := by
  decide

/-- Claim C3 (amended): `set_current_measure` with neither channel enabled
raises the invalid-argument error (`AttributeError` in the source), but only
after the type-select command `:ANALyzer:TYPE CURR` has been sent; no
measure-type command is sent. -/
theorem claim_C3_theorem (tr : List String) (d : DevState) :
    setCurrentMeasure (PulseCurrentAnalysis.mk false false) ⟨tr, d, none⟩ =
      (⟨tr ++ [":ANALyzer:TYPE CURR"], d, none⟩, Except.error PyExc.attrError) := by
  simp [setCurrentMeasure, typeSet, AnalysisType.value]

/-- Claim C5, counterexample: a session with `log=False` whose body turns
logging on leaves the device logging state changed after the session — the
final logging state does not equal the pre-session state `"0"`. -/
theorem claim_C5_counterexample :
    ((analyze (Sum.inr (PulseCurrentAnalysis.mk true true)) false
        (logSet (PyVal.bool true)))
        ⟨[], DevState.mk "0" "0" 50 true "", none⟩).1.device.logText ≠
      (DevState.mk "0" "0" 50 true "").logText := by
  decide

/-- Claim C5 (amended): with `log=False` the session itself never touches the
logging state, so for every configuration and every body whose net effect
leaves the device logging state as it found it, the logging state after the
session equals the logging state before it.  (A body that persistently
changes logging leaves it changed: see the counterexample.) -/
theorem claim_C5_theorem (config : AnalyzeConfig) (body : M Unit)
    (hbody : PreservesLog body) (s : ScpiState) :
    ((analyze config false body) s).1.device.logText = s.device.logText := by
  have h : PreservesLog (analyze config false body) := by
    unfold analyze
    refine preservesLog_bind preservesLog_logGet (fun il => ?_)
    refine preservesLog_bind preservesLog_activeGet (fun ia => ?_)
    refine preservesLog_pyFinally ?_ ?_
    · refine preservesLog_bind ?_ (fun _ => ?_)
      · cases config with
        | inl c => exact preservesLog_setCommonMeasure c
        | inr p => exact preservesLog_setCurrentMeasure p
      · refine preservesLog_bind ?_ (fun _ => ?_)
        · rw [if_neg (by decide : ¬(false = true))]
          exact preservesLog_pure ()
        · exact preservesLog_bind (preservesLog_activeSet true) (fun _ => hbody)
    · refine preservesLog_bind (preservesLog_activeSet ia) (fun _ => ?_)
      rw [if_neg (by decide : ¬(false = true))]
      exact preservesLog_pure ()
  exact h s

/-- Claim C5, witness: the amended theorem applied to a no-op body at a
concrete state whose logging state reads `"0"`. -/
theorem claim_C5_witness :
    ((analyze (Sum.inr (PulseCurrentAnalysis.mk true true)) false (pure ()))
        ⟨[], DevState.mk "0" "0" 50 true "", none⟩).1.device.logText = "0" :=
  claim_C5_theorem (Sum.inr (PulseCurrentAnalysis.mk true true)) (pure ())
    (fun _ => rfl) ⟨[], DevState.mk "0" "0" 50 true "", none⟩

/-- Claim C6: evaluation at the failing input.  A session with `log=True`
over a device whose logging state reads `"0"` (off) ends with the device
logging state `"1"` (on): the cleanup assigns the captured response text
`"0"` through the truthiness-based setter, and a nonempty string is truthy,
so the restore command is `:ANALyzer:SAVE:STATe 1` — the prior state is not
restored.  The `active` state, by contrast, is restored (`:ANALyzer:STATe 0`
is sent).  The full trace exhibits both. -/
theorem claim_C6 :
    ((analyze (Sum.inr (PulseCurrentAnalysis.mk true true)) true (pure ()))
        ⟨[], DevState.mk "0" "0" 50 true "", none⟩).1.device.logText = "1" ∧
    ((analyze (Sum.inr (PulseCurrentAnalysis.mk true true)) true (pure ()))
        ⟨[], DevState.mk "0" "0" 50 true "", none⟩).1.trace =
      [":ANALyzer:SAVE:STATe?", ":ANALyzer:STATe?", ":ANALyzer:TYPE CURR",
       ":ANALyzer:CURRent:MEASure:TYPE CH1,CH2", ":ANALyzer:SAVE:STATe 1",
       ":ANALyzer:STATe 1", ":ANALyzer:STATe 0", ":ANALyzer:SAVE:STATe 1"] := by
  exact ⟨by decide, by decide⟩

/-- Claim C7: evaluation at the failing input.  The source maps both
`ConstantVoltage` and `ConstantCurrent` to the wire code `"CV"`, so parsing
the device response `"CC"` raises `ValueError` instead of yielding
`ConstantCurrent`, and the three wire codes do not map to three distinct
members: the parse can never produce `ConstantCurrent`. -/
theorem claim_C7 :
    parseOutputMode "CV" = Except.ok OutputMode.ConstantVoltage ∧
    parseOutputMode "UR" = Except.ok OutputMode.Unregulated ∧
    parseOutputMode "CC" = Except.error PyExc.valueError ∧
    OutputMode.wireValue OutputMode.ConstantCurrent =
      OutputMode.wireValue OutputMode.ConstantVoltage := ⟨rfl, rfl, rfl, rfl⟩

/-- Claim C9, counterexample: with a transport fault injected at the first
blink command, `look_at_me` propagates the transport error and the restore
commands (brightness 50, beeper ON) are never sent — the restore step is not
guaranteed cleanup. -/
theorem claim_C9_counterexample :
    lookAtMe ⟨[], DevState.mk "x" "y" 50 true "z", some 2⟩ =
      ((⟨[":SYST:BRIG?", ":SYST:BEEP?"], DevState.mk "x" "y" 50 true "z",
        some 2⟩ : ScpiState), Except.error PyExc.scpiError) ∧
    ":SYST:BRIG 50" ∉
      (lookAtMe ⟨[], DevState.mk "x" "y" 50 true "z", some 2⟩).1.trace ∧
    ":SYST:BEEP ON" ∉
      (lookAtMe ⟨[], DevState.mk "x" "y" 50 true "z", some 2⟩).1.trace := by
  exact ⟨rfl, by decide, by decide⟩

/-- Claim C10: the analyzer `log` getter returns the transport's response
text verbatim and unparsed, for every device state (hence for every response
string the stub can give), while the `active` getter returns the boolean
comparison of its response with `"1"`. -/
theorem claim_C10 (tr : List String) (d : DevState) :
    logGet ⟨tr, d, none⟩ =
      (⟨tr ++ [":ANALyzer:SAVE:STATe?"], d, none⟩, Except.ok d.logText) ∧
    activeGet ⟨tr, d, none⟩ =
      (⟨tr ++ [":ANALyzer:STATe?"], d, none⟩, Except.ok (d.activeText == "1")) := by
  constructor
  · simp [logGet]
  · simp [activeGet]

/-- Claim C1: on CH1, the scoped activation session around `Output(5.0, 1.0)`
with a body that probes sends exactly `:APPL CH1,5.000,1.000`,
`:OUTP CH1,ON`, `MEAS:ALL? CH1`, `:OUTP CH1,OFF`, in that order and nothing
else, against a stub transport whose probe response parses. -/
theorem claim_C1 :
    (runActive 1 (Output.mk 5 1) (probe 1)
        ⟨[], DevState.mk "0" "0" 50 true "1.0,2.0,3.0", none⟩).1.trace =
      [":APPL CH1,5.000,1.000", ":OUTP CH1,ON", "MEAS:ALL? CH1", ":OUTP CH1,OFF"] ∧
    (runActive 1 (Output.mk 5 1) (probe 1)
        ⟨[], DevState.mk "0" "0" 50 true "1.0,2.0,3.0", none⟩).2.isOk = true := by
  have houtput : outputSet 1 (Output.mk 5 1) = scpiSendTo ":APPL CH1,5.000,1.000" id := by
    unfold outputSet
    rw [fmt3_five, fmt3_one]
    exact congrArg (fun c => scpiSendTo c id) (by decide)
  constructor
  · unfold runActive
    rw [houtput]
    decide
  · unfold runActive
    rw [houtput]
    decide

/-- Claim C2: for every channel, protection family, threshold level, and
every body (returning normally, raising, or being cancelled — any result
`r`), the scoped protection session sends the clear command, the threshold
command (3-decimal formatted), the arm command, runs the body, and sends the
disarm command last on every exit path; the body's outcome — in particular a
raised error — propagates unchanged after the disarm command is in the
trace. -/
theorem claim_C2 (channel : Nat) (protecting : String) (level : ℚ)
    (body : M Unit) (bt : List String) (bodyDev : DevState → DevState)
    (r : Except PyExc Unit)
    (hbody : ∀ s : ScpiState, body s =
      ({ s with trace := s.trace ++ bt, device := bodyDev s.device }, r))
    (tr : List String) (d : DevState) :
    runProtected channel protecting level body ⟨tr, d, none⟩ =
      (⟨tr ++ ([sourceId channel ++ ":" ++ protecting ++ ":PROT:CLE",
          sourceId channel ++ ":" ++ protecting ++ ":PROT " ++ fmt3 level,
          sourceId channel ++ ":" ++ protecting ++ ":PROT:STAT ON"] ++ bt ++
          [sourceId channel ++ ":" ++ protecting ++ ":PROT:STAT OFF"]),
        bodyDev d, none⟩, r) := by
  have hon : (":PROT:STAT " ++ "ON" : String) = ":PROT:STAT ON" := by decide
  have hoff : (":PROT:STAT " ++ "OFF" : String) = ":PROT:STAT OFF" := by decide
  cases r with
  | ok a =>
    simp [runProtected, pyFinally, protClear, protLevelSet, protStateSet,
      hbody, scpiSendTo]
    constructor <;> rw [String.append_assoc] <;> congr 1
  | error e =>
    simp [runProtected, pyFinally, protClear, protLevelSet, protStateSet,
      hbody, scpiSendTo]
    constructor <;> rw [String.append_assoc] <;> congr 1

/-- Claim C2, witness: a concrete cancelled body on CH1 over-current
protection at threshold 2: the trace is the five commands in order with the
disarm command last, and the cancellation propagates. -/
theorem claim_C2_witness :
    runProtected 1 "CURRent" 2
        (fun s => (ScpiState.mk (s.trace ++ ["MEAS:ALL? CH1"])
          ((fun dv => dv) s.device) s.failAt,
          (Except.error PyExc.genExit : Except PyExc Unit)))
        ⟨[], DevState.mk "0" "0" 50 true "", none⟩ =
      (⟨[sourceId 1 ++ ":" ++ "CURRent" ++ ":PROT:CLE",
          sourceId 1 ++ ":" ++ "CURRent" ++ ":PROT " ++ fmt3 2,
          sourceId 1 ++ ":" ++ "CURRent" ++ ":PROT:STAT ON",
          "MEAS:ALL? CH1",
          sourceId 1 ++ ":" ++ "CURRent" ++ ":PROT:STAT OFF"],
        DevState.mk "0" "0" 50 true "", none⟩,
        (Except.error PyExc.genExit : Except PyExc Unit)) :=
  claim_C2 1 "CURRent" 2 _ ["MEAS:ALL? CH1"] (fun dv => dv)
    (Except.error PyExc.genExit) (fun _ => rfl) [] (DevState.mk "0" "0" 50 true "")

theorem parseCommonItems_error : ∀ (items : List String) (acc : CommonAnalysis),
    (∃ item ∈ items, badToken item) →
    ∃ e : PyExc, parseCommonItems items acc = Except.error e := by
  intro items
  induction items with
  | nil =>
    intro acc h
    simp at h
  | cons item rest ih =>
    intro acc h
    obtain ⟨it, hmem, hbad⟩ := h
    rcases List.mem_cons.mp hmem with rfl | htail
    · obtain ⟨cs, ts, hsplit, h1, h2, h3⟩ := hbad
      refine ⟨PyExc.assertError, ?_⟩
      simp only [parseCommonItems, hsplit]
      rw [if_neg h1, if_neg h2, if_neg h3]
    · have htl : ∃ x ∈ rest, badToken x := ⟨it, htail, hbad⟩
      rcases hs : splitOnChar '_' item.data with _ | ⟨c1, _ | ⟨c2, _ | ⟨c3, l3⟩⟩⟩
      · exact ⟨PyExc.valueError, by simp [parseCommonItems, hs]⟩
      · exact ⟨PyExc.valueError, by simp [parseCommonItems, hs]⟩
      · by_cases hc1 : String.mk c1 = "CH1"
        · rcases ht : commonAnalysisTypeOfWire (String.mk c2) with _ | t
          · exact ⟨PyExc.valueError, by simp [parseCommonItems, hs, hc1, ht]⟩
          · obtain ⟨e, he⟩ := ih { acc with ch1 := some t } htl
            exact ⟨e, by simp [parseCommonItems, hs, hc1, ht, he]⟩
        · by_cases hc2 : String.mk c1 = "CH2"
          · rcases ht : commonAnalysisTypeOfWire (String.mk c2) with _ | t
            · exact ⟨PyExc.valueError, by simp [parseCommonItems, hs, hc1, hc2, ht]⟩
            · obtain ⟨e, he⟩ := ih { acc with ch2 := some t } htl
              exact ⟨e, by simp [parseCommonItems, hs, hc1, hc2, ht, he]⟩
          · by_cases hc3 : String.mk c1 = "CH3"
            · rcases ht : commonAnalysisTypeOfWire (String.mk c2) with _ | t
              · exact ⟨PyExc.valueError,
                  by simp [parseCommonItems, hs, hc1, hc2, hc3, ht]⟩
              · obtain ⟨e, he⟩ := ih { acc with ch3 := some t } htl
                exact ⟨e, by simp [parseCommonItems, hs, hc1, hc2, hc3, ht, he]⟩
            · exact ⟨PyExc.assertError,
                by simp only [parseCommonItems, hs]; rw [if_neg hc1, if_neg hc2, if_neg hc3]⟩
      · exact ⟨PyExc.valueError, by simp [parseCommonItems, hs]⟩

/-- Claim C4: `get_common_measure` parses `"CH1_V CH2_C CH3_P"` into
voltage/current/power for the three channels; and for every response
containing a token whose channel tag (the part before the underscore, in a
two-part token) is none of CH1/CH2/CH3, parsing raises an error (the
`AssertionError` branch — the spec calls this `ProtocolViolation`). -/
theorem claim_C4 :
    getCommonMeasure "CH1_V CH2_C CH3_P" =
      Except.ok (CommonAnalysis.mk (some CommonAnalysisType.Voltage)
        (some CommonAnalysisType.Current) (some CommonAnalysisType.Power)) ∧
    ∀ response : String,
      (∃ item ∈ (splitOnChar ' ' response.data).map (fun l => (⟨l⟩ : String)),
        badToken item) →
      ∃ e : PyExc, getCommonMeasure response = Except.error e := by
  constructor
  · rfl
  · intro response h
    exact parseCommonItems_error _ _ h

/-- Claim C4, witness: the universal part applied to the response `"CH4_V"`,
whose only token has channel tag CH4. -/
theorem claim_C4_witness :
    (∃ item ∈ (splitOnChar ' ' ("CH4_V" : String).data).map (fun l => (⟨l⟩ : String)),
      badToken item) ∧
    ∃ e : PyExc, getCommonMeasure "CH4_V" = Except.error e := by
  have hbad : ∃ item ∈ (splitOnChar ' ' ("CH4_V" : String).data).map
      (fun l => (⟨l⟩ : String)), badToken item :=
    ⟨"CH4_V", by decide, "CH4".data, "V".data, by decide, by decide, by decide, by decide⟩
  exact ⟨hbad, claim_C4.2 "CH4_V" hbad⟩

/-- Claim C8: every numeric set-point written to the wire — the two
`set_output` fields and the `set_level` protection threshold — is rendered by
the 3-fractional-digit formatter `fmt3`; the `get_output` parser applied to a
transport echo of the written values returns exactly the values rounded to
3-decimal precision (`q3`); re-formatting the parsed values reproduces the
wire text verbatim (format-then-parse is idempotent at that precision); and
the rendered text has exactly one dot followed by exactly three fractional
digits. -/
theorem claim_C8 (v c : ℚ) :
    (∀ (channel : Nat) (tr : List String) (d : DevState),
      outputSet channel (Output.mk v c) ⟨tr, d, none⟩ =
        (⟨tr ++ [":APPL CH" ++ natToStr channel ++ "," ++ fmt3 v ++ "," ++ fmt3 c],
          d, none⟩, Except.ok ())) ∧
    (∀ (channel : Nat) (protecting : String) (tr : List String) (d : DevState),
      protLevelSet channel protecting v ⟨tr, d, none⟩ =
        (⟨tr ++ [sourceId channel ++ ":" ++ protecting ++ ":PROT " ++ fmt3 v],
          d, none⟩, Except.ok ())) ∧
    parseApplResponse ("CH1:CV," ++ fmt3 v ++ "," ++ fmt3 c) =
      Except.ok (Output.mk (q3 v) (q3 c)) ∧
    fmt3 (q3 v) = fmt3 v ∧ fmt3 (q3 c) = fmt3 c ∧
    (∃ ip fp : List Char, (fmt3 v).data = ip ++ '.' :: fp ∧ fp.length = 3 ∧
      '.' ∉ ip ∧ '.' ∉ fp) := by
  refine ⟨?_, ?_, ?_, fmt3_q3 v, fmt3_q3 c, fmt3_shape v⟩
  · intro channel tr d
    simp [outputSet]
  · intro channel protecting tr d
    simp [protLevelSet]
  · have hv := pyFloatChars_fmt3 v
    have hc := pyFloatChars_fmt3 c
    have hdata : ("CH1:CV," ++ fmt3 v ++ "," ++ fmt3 c).data =
        ['C','H','1'] ++ ':' ::
          (['C','V'] ++ ',' :: ((fmt3 v).data ++ ',' :: (fmt3 c).data)) := by
      rw [String.data_append, String.data_append, String.data_append,
        show ("CH1:CV," : String).data = ['C','H','1',':','C','V',','] from rfl,
        show ("," : String).data = [','] from rfl]
      simp
    simp +decide only [parseApplResponse, hdata, splitFirst_append,
      splitOnChar_append, splitOnChar_of_not_mem, comma_not_mem_fmt3, hv, hc]

/-- Claim C9 (amended): on a fault-free transport, `look_at_me` reads the
brightness and beeper state, performs the three blink/beep rounds, and then
— as its final two commands, on the normal-completion path only — writes the
original brightness and the original beeper state back, for every initial
brightness and beeper state; a transport error partway instead aborts
without restoring (see the counterexample). -/
theorem claim_C9_theorem (b0 : Nat) (beep0 : Bool) (a0 l0 m0 : String) :
    lookAtMe ⟨[], DevState.mk a0 l0 b0 beep0 m0, none⟩ =
      (⟨[":SYST:BRIG?", ":SYST:BEEP?",
         ":SYST:BRIG 100", ":SYST:BRIG 10", ":SYSTem:BEEPer:IMMediate",
         ":SYST:BRIG 100", ":SYST:BRIG 10",
         ":SYST:BRIG 100", ":SYST:BRIG 10", ":SYSTem:BEEPer:IMMediate",
         ":SYST:BRIG 100", ":SYST:BRIG 10",
         ":SYST:BRIG 100", ":SYST:BRIG 10", ":SYSTem:BEEPer:IMMediate",
         ":SYST:BRIG 100", ":SYST:BRIG 10",
         ":SYST:BRIG " ++ natToStr b0,
         ":SYST:BEEP " ++ (if beep0 then "ON" else "OFF")],
        DevState.mk a0 l0 b0 beep0 m0, none⟩, Except.ok ()) := by
  have h100 : (":SYST:BRIG " ++ intToStr 100 : String) = ":SYST:BRIG 100" := by decide
  have h10 : (":SYST:BRIG " ++ intToStr 10 : String) = ":SYST:BRIG 10" := by decide
  cases beep0 <;>
    simp [lookAtMe, displayBrightnessGet, displayBrightnessSet, beeperGet,
      beeperSet, beep, blink, pyIntChars_natToStr, intToStr_ofNat, h100, h10]
